import Mathlib

/-!
Shallow embedding of the sbi-rs vendor-extension layer (src/vendor.rs,
src/salus.rs, src/ecall.rs) and verification of its specification.

Conventions of the embedding:
* u64 register values are modelled as Nat (no arithmetic is performed on
  register slots; where Rust reinterprets a u64 as i64 we reduce modulo 2^64
  explicitly).
* A Rust register slice (write: and-sign [u64]) is a List Nat; the Rust
  indexing args[i], which panics when i is out of bounds, is List.get? with
  a panic modelled as the result none.  A decoder therefore has the type
  List Nat to Option (Except Error T): none models a panic, some (ok v) a
  successful decode, some (error e) a typed failure.
* Rust Result T is Except Error T.
-/

namespace SbiRs

/-- Modelled from the spec: the standard error-kind enumeration lives in the
repository module error (not under src/); the spec treats it as an external
collaborator and fixes only that the decoders fail with a Not-Supported kind
and that every nonzero signed result code maps to a specific error kind.  We
model the table as the Not-Supported kind used by the decoders plus a kind
indexed by its signed code. -/
inductive Error where
  | NotSupported
  | ErrorKind (code : Int)
  deriving DecidableEq, Repr

/-- Modelled from the spec: the base call catalogue type SbiMessage is owned
by the base collaborator (repository module not under src/); its concrete
extensions are out of scope, so we model its values abstractly as carrying a
register list. -/
structure SbiMessage where
  regs : List Nat
  deriving DecidableEq, Repr

/-- Modelled from the spec: the base decoder SbiMessage.from_regs is consumed,
not specified; the spec only requires that it resolves slot 7 and yields a
valid call value or an explicit Not-Supported outcome, and Scenario 3 allows
it to return Not-Supported on any input.  With the base catalogue unspecified
here, the modelled decoder reads slot 7 (a panic on short frames, as Rust
indexing does) and recognizes no extension. -/
def SbiMessage.from_regs (args : List Nat) : Option (Except Error SbiMessage) :=
  match args.get? 7 with
  | none => none
  | some _ => some (Except.error Error.NotSupported)

/-- Modelled from the spec: lower bound of the reserved vendor identifier
range, owned by the base collaborator (repository module consts, not under
src/); the standard SBI vendor-extension space starts at 0x09000000, and the
example extension identifier 0x09FFFFFF must lie inside the range. -/
def EXT_VENDOR_RANGE_START : Nat := 0x09000000

/-- Modelled from the spec: upper bound of the reserved vendor identifier
range (see EXT_VENDOR_RANGE_START). -/
def EXT_VENDOR_RANGE_END : Nat := 0x09FFFFFF

/-- The trait EcallMessage of ecall.rs: the eight register-slot accessors. -/
class EcallMessage (α : Type) where
  a7 : α → Nat
  a6 : α → Nat
  a5 : α → Nat
  a4 : α → Nat
  a3 : α → Nat
  a2 : α → Nat
  a1 : α → Nat
  a0 : α → Nat

/-- Reinterpretation of a u64 bit pattern as an i64 (Rust: a0 as i64). -/
def i64OfU64 (n : Nat) : Int :=
  if n % 2 ^ 64 < 2 ^ 63 then ((n % 2 ^ 64 : Nat) : Int)
  else ((n % 2 ^ 64 : Nat) : Int) - 2 ^ 64

/-- The raw result pair of an ecall: signed error code and return value
(repository type SbiReturn, consumed by ecall.rs). -/
structure SbiReturn where
  error_code : Int
  return_value : Nat
  deriving DecidableEq, Repr

/-- Modelled from the spec: the conversion From SbiReturn for Result (in the
repository module error, not under src/).  The spec fixes the policy: a zero
code maps to success carrying the return value; any nonzero code is looked up
in the shared error-kind table and surfaces as a typed failure. -/
def SbiReturn.toResult (r : SbiReturn) : Except Error Nat :=
  if r.error_code = 0 then Except.ok r.return_value
  else Except.error (Error.ErrorKind r.error_code)

/-- The default implementation of EcallMessage.result (ecall.rs lines 59-66):
build an SbiReturn from a0 reinterpreted as i64 and a1, and convert it. -/
def EcallMessage.resultDefault (a0 a1 : Nat) : Except Error Nat :=
  SbiReturn.toResult { error_code := i64OfU64 a0, return_value := a1 }

/-- The trait VendorExtension of vendor.rs: an EcallMessage that can also be
reconstructed from a register set. -/
class VendorExtension (V : Type) extends EcallMessage V where
  from_regs : List Nat → Option (Except Error V)

/-- The enum VendorSbiMessage of vendor.rs. -/
inductive VendorSbiMessage (V : Type) where
  | Sbi (m : SbiMessage)
  | Vendor (m : V)
  deriving DecidableEq

/-- VendorSbiMessage.from_regs of vendor.rs: match on args[7]; identifiers in
the reserved vendor range go to the vendor decoder, everything else to the
base decoder.  The base decoder SbiMessage.from_regs is external to src/, so
the embedding takes it as the explicit parameter base. -/
def VendorSbiMessage.from_regs {V : Type} [VendorExtension V]
    (base : List Nat → Option (Except Error SbiMessage))
    (args : List Nat) : Option (Except Error (VendorSbiMessage V)) :=
  match args.get? 7 with
  | none => none
  | some x =>
    if EXT_VENDOR_RANGE_START ≤ x ∧ x ≤ EXT_VENDOR_RANGE_END then
      (VendorExtension.from_regs (V := V) args).map (Except.map VendorSbiMessage.Vendor)
    else
      (base args).map (Except.map VendorSbiMessage.Sbi)

/-- The constant EXT_SALUS_TEST of salus.rs. -/
def EXT_SALUS_TEST : Nat := 0x09FFFFFF

/-- The struct MemCopyArgs of salus.rs (field names from the source; the
fields to and from are written with guillemets because both are Lean
keywords). -/
structure MemCopyArgs where
  «to» : Nat
  «from» : Nat
  len : Nat
  deriving DecidableEq, Repr

/-- The enum SalusTestFunction of salus.rs. -/
inductive SalusTestFunction where
  | MemCopy (args : MemCopyArgs)
  deriving DecidableEq, Repr

/-- SalusTestFunction.from_regs of salus.rs: match on args[6]; discriminant 0
decodes MemCopy from args[0..2], anything else is Not-Supported. -/
def SalusTestFunction.from_regs (args : List Nat) :
    Option (Except Error SalusTestFunction) :=
  match args.get? 6 with
  | none => none
  | some 0 =>
    match args.get? 0, args.get? 1, args.get? 2 with
    | some r0, some r1, some r2 =>
      some (Except.ok (SalusTestFunction.MemCopy { «to» := r0, «from» := r1, len := r2 }))
    | _, _, _ => none
  | some _ => some (Except.error Error.NotSupported)

/-- SbiFunction accessor a0 of SalusTestFunction (salus.rs): the destination. -/
def SalusTestFunction.a0 : SalusTestFunction → Nat
  | .MemCopy args => args.«to»

/-- SbiFunction accessor a1 of SalusTestFunction (salus.rs): the source. -/
def SalusTestFunction.a1 : SalusTestFunction → Nat
  | .MemCopy args => args.«from»

/-- SbiFunction accessor a2 of SalusTestFunction (salus.rs): the length. -/
def SalusTestFunction.a2 : SalusTestFunction → Nat
  | .MemCopy args => args.len

/-- Modelled from the spec: slot a3 is unused by MemCopy and the trait
SbiFunction (repository module not under src/) supplies the default; the spec
fixes unused slots at zero. -/
def SalusTestFunction.a3 (_ : SalusTestFunction) : Nat := 0

/-- Modelled from the spec: default for the unused slot a4 (see a3). -/
def SalusTestFunction.a4 (_ : SalusTestFunction) : Nat := 0

/-- Modelled from the spec: default for the unused slot a5 (see a3). -/
def SalusTestFunction.a5 (_ : SalusTestFunction) : Nat := 0

/-- SbiFunction accessor a6 of SalusTestFunction (salus.rs): function id 0. -/
def SalusTestFunction.a6 : SalusTestFunction → Nat
  | .MemCopy _ => 0

/-- The enum SalusExtension of salus.rs. -/
inductive SalusExtension where
  | SalusTest (f : SalusTestFunction)
  deriving DecidableEq, Repr

/-- SalusExtension.from_regs of salus.rs: match on args[7]; EXT_SALUS_TEST
delegates to SalusTestFunction.from_regs, anything else is Not-Supported. -/
def SalusExtension.from_regs (args : List Nat) : Option (Except Error SalusExtension) :=
  match args.get? 7 with
  | none => none
  | some x =>
    if x = EXT_SALUS_TEST then
      (SalusTestFunction.from_regs args).map (Except.map SalusExtension.SalusTest)
    else
      some (Except.error Error.NotSupported)

/-- The impl EcallMessage for SalusExtension of salus.rs: a7 is the constant
EXT_SALUS_TEST, the other slots delegate to the wrapped function. -/
instance : EcallMessage SalusExtension where
  a7 := fun _ => EXT_SALUS_TEST
  a6 := fun m => match m with | .SalusTest f => f.a6
  a5 := fun m => match m with | .SalusTest f => f.a5
  a4 := fun m => match m with | .SalusTest f => f.a4
  a3 := fun m => match m with | .SalusTest f => f.a3
  a2 := fun m => match m with | .SalusTest f => f.a2
  a1 := fun m => match m with | .SalusTest f => f.a1
  a0 := fun m => match m with | .SalusTest f => f.a0

/-- The impl VendorExtension for SalusExtension of salus.rs. -/
instance : VendorExtension SalusExtension :=
  { toEcallMessage := inferInstance, from_regs := SalusExtension.from_regs }

/-- Modelled from the spec: the EcallMessage accessors of the abstract base
message read the stored register list (the base catalogue is external). -/
instance : EcallMessage SbiMessage where
  a7 := fun m => m.regs.getD 7 0
  a6 := fun m => m.regs.getD 6 0
  a5 := fun m => m.regs.getD 5 0
  a4 := fun m => m.regs.getD 4 0
  a3 := fun m => m.regs.getD 3 0
  a2 := fun m => m.regs.getD 2 0
  a1 := fun m => m.regs.getD 1 0
  a0 := fun m => m.regs.getD 0 0

/-- The impl EcallMessage for VendorSbiMessage of vendor.rs: pure delegation
to whichever side of the union is present. -/
instance {V : Type} [VendorExtension V] : EcallMessage (VendorSbiMessage V) where
  a7 := fun m => match m with
    | .Sbi s => EcallMessage.a7 s
    | .Vendor v => EcallMessage.a7 v
  a6 := fun m => match m with
    | .Sbi s => EcallMessage.a6 s
    | .Vendor v => EcallMessage.a6 v
  a5 := fun m => match m with
    | .Sbi s => EcallMessage.a5 s
    | .Vendor v => EcallMessage.a5 v
  a4 := fun m => match m with
    | .Sbi s => EcallMessage.a4 s
    | .Vendor v => EcallMessage.a4 v
  a3 := fun m => match m with
    | .Sbi s => EcallMessage.a3 s
    | .Vendor v => EcallMessage.a3 v
  a2 := fun m => match m with
    | .Sbi s => EcallMessage.a2 s
    | .Vendor v => EcallMessage.a2 v
  a1 := fun m => match m with
    | .Sbi s => EcallMessage.a1 s
    | .Vendor v => EcallMessage.a1 v
  a0 := fun m => match m with
    | .Sbi s => EcallMessage.a0 s
    | .Vendor v => EcallMessage.a0 v

/-- The 8-slot register frame produced by the slot accessors of a message:
slot i of the frame is the accessor a i. -/
def regsOf {α : Type} [EcallMessage α] (m : α) : List Nat :=
  [EcallMessage.a0 m, EcallMessage.a1 m, EcallMessage.a2 m, EcallMessage.a3 m,
   EcallMessage.a4 m, EcallMessage.a5 m, EcallMessage.a6 m, EcallMessage.a7 m]

/-- The type alias SalusSbiMessage of salus.rs. -/
abbrev SalusSbiMessage := VendorSbiMessage SalusExtension

/-- The composed Salus decode: VendorSbiMessage.from_regs instantiated at the
Salus vendor extension and the (modelled) base decoder, as in salus.rs. -/
def SalusSbiMessage.from_regs (args : List Nat) : Option (Except Error SalusSbiMessage) :=
  VendorSbiMessage.from_regs SbiMessage.from_regs args

/-- The fallback ecall_send of ecall.rs (lines 94-97), the body compiled on
every platform outside riscv64 with target_os none: it panics unconditionally,
and a panic is modelled as the result none. -/
def ecall_send {M : Type} [EcallMessage M] (_msg : M) : Option (Except Error Nat) :=
  none

/-! ### Helper lemmas shared by the claim theorems -/

/-- A list of length at least 8 has an explicit 8-element front. -/
theorem exists_front8 (args : List Nat) (h : 8 ≤ args.length) :
    ∃ r0 r1 r2 r3 r4 r5 r6 r7 rest,
      args = r0 :: r1 :: r2 :: r3 :: r4 :: r5 :: r6 :: r7 :: rest := by
  rcases args with _ | ⟨r0, args⟩
  · simp at h
  rcases args with _ | ⟨r1, args⟩
  · simp at h
  rcases args with _ | ⟨r2, args⟩
  · simp at h
  rcases args with _ | ⟨r3, args⟩
  · simp at h
  rcases args with _ | ⟨r4, args⟩
  · simp at h
  rcases args with _ | ⟨r5, args⟩
  · simp at h
  rcases args with _ | ⟨r6, args⟩
  · simp at h
  rcases args with _ | ⟨r7, args⟩
  · simp at h
  exact ⟨r0, r1, r2, r3, r4, r5, r6, r7, args, rfl⟩

/-- Unfolding of the composed decode on a frame with an explicit 8-slot
front: the branch is decided by slot 7 against the vendor range. -/
theorem vendor_from_regs_cons {V : Type} [VendorExtension V]
    (base : List Nat → Option (Except Error SbiMessage))
    (r0 r1 r2 r3 r4 r5 r6 r7 : Nat) (rest : List Nat) :
    VendorSbiMessage.from_regs (V := V) base
        (r0 :: r1 :: r2 :: r3 :: r4 :: r5 :: r6 :: r7 :: rest) =
      if EXT_VENDOR_RANGE_START ≤ r7 ∧ r7 ≤ EXT_VENDOR_RANGE_END then
        (VendorExtension.from_regs (V := V)
            (r0 :: r1 :: r2 :: r3 :: r4 :: r5 :: r6 :: r7 :: rest)).map
          (Except.map VendorSbiMessage.Vendor)
      else
        (base (r0 :: r1 :: r2 :: r3 :: r4 :: r5 :: r6 :: r7 :: rest)).map
          (Except.map VendorSbiMessage.Sbi) := rfl

/-- Unfolding of the Salus extension decode on an explicit 8-slot front. -/
theorem salus_ext_from_regs_cons (r0 r1 r2 r3 r4 r5 r6 r7 : Nat) (rest : List Nat) :
    SalusExtension.from_regs (r0 :: r1 :: r2 :: r3 :: r4 :: r5 :: r6 :: r7 :: rest) =
      if r7 = EXT_SALUS_TEST then
        (SalusTestFunction.from_regs
            (r0 :: r1 :: r2 :: r3 :: r4 :: r5 :: r6 :: r7 :: rest)).map
          (Except.map SalusExtension.SalusTest)
      else
        some (Except.error Error.NotSupported) := rfl

/-- Unfolding of the Salus test-function decode on an explicit 8-slot
front: slot 6 is the function discriminant. -/
theorem salus_test_from_regs_cons (r0 r1 r2 r3 r4 r5 r6 r7 : Nat) (rest : List Nat) :
    SalusTestFunction.from_regs (r0 :: r1 :: r2 :: r3 :: r4 :: r5 :: r6 :: r7 :: rest) =
      if r6 = 0 then
        some (Except.ok (SalusTestFunction.MemCopy { «to» := r0, «from» := r1, len := r2 }))
      else
        some (Except.error Error.NotSupported) := by
  cases r6 <;> rfl

/-- The modelled base decoder returns its Not-Supported verdict on any frame
with at least 8 slots. -/
theorem sbi_from_regs_cons (r0 r1 r2 r3 r4 r5 r6 r7 : Nat) (rest : List Nat) :
    SbiMessage.from_regs (r0 :: r1 :: r2 :: r3 :: r4 :: r5 :: r6 :: r7 :: rest) =
      some (Except.error Error.NotSupported) := rfl

/-- The vendor decoder of the Salus instance is SalusExtension.from_regs. -/
theorem vendor_ext_salus :
    VendorExtension.from_regs (V := SalusExtension) = SalusExtension.from_regs := rfl

/-- A slice whose slot 7 exists has length at least 8. -/
theorem length_ge8_of_get7 (args : List Nat) (x : Nat) (h7 : args.get? 7 = some x) :
    8 ≤ args.length := by
  by_contra hlen
  have hn : args.get? 7 = none := List.get?_eq_none.mpr (by omega)
  rw [hn] at h7
  exact Option.noConfusion h7

/-- Full case analysis of the Salus extension decode on an explicit 8-slot
front: slot 7 selects the extension, slot 6 the function. -/
theorem salus_ext_decode_front8 (r0 r1 r2 r3 r4 r5 r6 r7 : Nat) (rest : List Nat) :
    SalusExtension.from_regs (r0 :: r1 :: r2 :: r3 :: r4 :: r5 :: r6 :: r7 :: rest) =
      if r7 = EXT_SALUS_TEST then
        (if r6 = 0 then
          some (Except.ok (SalusExtension.SalusTest
            (SalusTestFunction.MemCopy ⟨r0, r1, r2⟩)))
        else some (Except.error Error.NotSupported))
      else some (Except.error Error.NotSupported) := by
  rw [salus_ext_from_regs_cons, salus_test_from_regs_cons]
  by_cases ht : r7 = EXT_SALUS_TEST <;> by_cases h6 : r6 = 0 <;>
    simp [ht, h6, Except.map]

/-- Full case analysis of the composed Salus decode on an explicit 8-slot
front: slot 7 selects the catalogue, then the extension, slot 6 the
function; every branch is an explicit outcome. -/
theorem salus_decode_front8 (r0 r1 r2 r3 r4 r5 r6 r7 : Nat) (rest : List Nat) :
    SalusSbiMessage.from_regs (r0 :: r1 :: r2 :: r3 :: r4 :: r5 :: r6 :: r7 :: rest) =
      if EXT_VENDOR_RANGE_START ≤ r7 ∧ r7 ≤ EXT_VENDOR_RANGE_END then
        (if r7 = EXT_SALUS_TEST then
          (if r6 = 0 then
            some (Except.ok (VendorSbiMessage.Vendor (SalusExtension.SalusTest
              (SalusTestFunction.MemCopy ⟨r0, r1, r2⟩))))
          else some (Except.error Error.NotSupported))
        else some (Except.error Error.NotSupported))
      else some (Except.error Error.NotSupported) := by
  unfold SalusSbiMessage.from_regs
  rw [vendor_from_regs_cons, vendor_ext_salus, salus_ext_decode_front8,
    sbi_from_regs_cons]
  by_cases hr : EXT_VENDOR_RANGE_START ≤ r7 ∧ r7 ≤ EXT_VENDOR_RANGE_END <;>
    by_cases ht : r7 = EXT_SALUS_TEST <;> by_cases h6 : r6 = 0 <;>
      simp [hr, ht, h6, Except.map]

/-! ### Claim theorems -/

/-- C1: Round-trip law for vendor-catalogue call values: decoding the 8-slot
frame produced by the slot accessors a0..a7 of a Vendor-wrapped Salus value
via the composed decoder yields Ok of a value equal to the original. -/
theorem C1_vendor_roundtrip (v : SalusExtension) :
    SalusSbiMessage.from_regs (regsOf (VendorSbiMessage.Vendor v : SalusSbiMessage)) =
      some (Except.ok (VendorSbiMessage.Vendor v)) := by
  rcases v with ⟨f⟩
  rcases f with ⟨a⟩
  rcases a with ⟨t, f, l⟩
  have h1 : regsOf (VendorSbiMessage.Vendor (SalusExtension.SalusTest
      (SalusTestFunction.MemCopy ⟨t, f, l⟩)) : SalusSbiMessage) =
      [t, f, l, 0, 0, 0, 0, EXT_SALUS_TEST] := rfl
  rw [h1]
  rfl

/-- C2: Range disjointness of the composed decode: whenever slot 7 of the
frame lies outside the reserved vendor range, the result is exactly the base
decoder result mapped into the Sbi variant (for every base decoder and every
vendor instance, so the vendor decoder is never consulted); whenever slot 7
lies inside the range, the result is exactly the vendor decoder result mapped
into the Vendor variant (for every base decoder, so the base decoder is never
consulted). -/
theorem C2_range_disjointness {V : Type} [VendorExtension V]
    (base : List Nat → Option (Except Error SbiMessage))
    (args : List Nat) (x : Nat) (h7 : args.get? 7 = some x) :
    (¬ (EXT_VENDOR_RANGE_START ≤ x ∧ x ≤ EXT_VENDOR_RANGE_END) →
      VendorSbiMessage.from_regs (V := V) base args =
        (base args).map (Except.map VendorSbiMessage.Sbi)) ∧
    ((EXT_VENDOR_RANGE_START ≤ x ∧ x ≤ EXT_VENDOR_RANGE_END) →
      VendorSbiMessage.from_regs (V := V) base args =
        (VendorExtension.from_regs (V := V) args).map
          (Except.map VendorSbiMessage.Vendor)) := by
  have e : VendorSbiMessage.from_regs (V := V) base args =
      if EXT_VENDOR_RANGE_START ≤ x ∧ x ≤ EXT_VENDOR_RANGE_END then
        (VendorExtension.from_regs (V := V) args).map (Except.map VendorSbiMessage.Vendor)
      else
        (base args).map (Except.map VendorSbiMessage.Sbi) := by
    unfold VendorSbiMessage.from_regs
    rw [h7]
  constructor
  · intro h
    rw [e, if_neg h]
  · intro h
    rw [e, if_pos h]

/-- Witness for C2 at concrete frames: slot 7 = 5 lies outside the reserved
range and the result is the base result mapped into Sbi; slot 7 = 0x09FFFFFF
lies inside and the result is the vendor result mapped into Vendor. -/
theorem C2_range_disjointness_witness :
    (VendorSbiMessage.from_regs (V := SalusExtension) SbiMessage.from_regs
        [0, 0, 0, 0, 0, 0, 0, 5] =
      (SbiMessage.from_regs [0, 0, 0, 0, 0, 0, 0, 5]).map
        (Except.map VendorSbiMessage.Sbi)) ∧
    (VendorSbiMessage.from_regs (V := SalusExtension) SbiMessage.from_regs
        [0, 0, 0, 0, 0, 0, 0, 0x09FFFFFF] =
      (VendorExtension.from_regs (V := SalusExtension)
          [0, 0, 0, 0, 0, 0, 0, 0x09FFFFFF]).map
        (Except.map VendorSbiMessage.Vendor)) :=
  ⟨(C2_range_disjointness SbiMessage.from_regs [0, 0, 0, 0, 0, 0, 0, 5] 5 rfl).1
      (by decide),
   (C2_range_disjointness SbiMessage.from_regs [0, 0, 0, 0, 0, 0, 0, 0x09FFFFFF]
      0x09FFFFFF rfl).2 (by decide)⟩

/-- C3: Totality of the composed decode on well-formed 8-slot frames: the
result is some Ok call value or some Not-Supported error; there is no panic
and no third outcome. -/
theorem C3_decode_totality (args : List Nat) (h : args.length = 8) :
    (∃ v, SalusSbiMessage.from_regs args = some (Except.ok v)) ∨
      SalusSbiMessage.from_regs args = some (Except.error Error.NotSupported) := by
  obtain ⟨r0, r1, r2, r3, r4, r5, r6, r7, rest, rfl⟩ := exists_front8 args (by omega)
  unfold SalusSbiMessage.from_regs
  rw [vendor_from_regs_cons, vendor_ext_salus]
  by_cases hr : EXT_VENDOR_RANGE_START ≤ r7 ∧ r7 ≤ EXT_VENDOR_RANGE_END
  · rw [if_pos hr, salus_ext_from_regs_cons]
    by_cases ht : r7 = EXT_SALUS_TEST
    · rw [if_pos ht, salus_test_from_regs_cons]
      by_cases h6 : r6 = 0
      · rw [if_pos h6]
        exact Or.inl ⟨_, rfl⟩
      · rw [if_neg h6]
        exact Or.inr rfl
    · rw [if_neg ht]
      exact Or.inr rfl
  · rw [if_neg hr, sbi_from_regs_cons]
    exact Or.inr rfl

/-- Witness for C3 at the all-zero 8-slot frame. -/
theorem C3_decode_totality_witness :
    (∃ v, SalusSbiMessage.from_regs [0, 0, 0, 0, 0, 0, 0, 0] = some (Except.ok v)) ∨
      SalusSbiMessage.from_regs [0, 0, 0, 0, 0, 0, 0, 0] =
        some (Except.error Error.NotSupported) :=
  C3_decode_totality [0, 0, 0, 0, 0, 0, 0, 0] rfl

/-- C4: Result mapping of the default EcallMessage.result: a zero code yields
success carrying the return value; a code that is nonzero as a signed 64-bit
integer yields the typed error kind of that code, which is never success,
regardless of the return value. -/
theorem C4_result_mapping :
    (∀ v : Nat, EcallMessage.resultDefault 0 v = Except.ok v) ∧
    (∀ e v : Nat, i64OfU64 e ≠ 0 →
      EcallMessage.resultDefault e v = Except.error (Error.ErrorKind (i64OfU64 e)) ∧
      ∀ u : Nat, EcallMessage.resultDefault e v ≠ Except.ok u) := by
  constructor
  · intro v
    rfl
  · intro e v he
    have h : EcallMessage.resultDefault e v =
        Except.error (Error.ErrorKind (i64OfU64 e)) := by
      simp [EcallMessage.resultDefault, SbiReturn.toResult, he]
    refine ⟨h, fun u hu => ?_⟩
    rw [h] at hu
    exact Except.noConfusion hu

/-- Witness for C4: the result pair (0, 42) decodes to success 42, and the
u64 encoding of -1 as error code decodes to the error kind of code -1. -/
theorem C4_result_mapping_witness :
    EcallMessage.resultDefault 0 42 = Except.ok 42 ∧
    EcallMessage.resultDefault 18446744073709551615 0 =
      Except.error (Error.ErrorKind (-1)) := by
  refine ⟨C4_result_mapping.1 42, ?_⟩
  have h := (C4_result_mapping.2 18446744073709551615 0 (by decide)).1
  have h2 : i64OfU64 18446744073709551615 = -1 := by decide
  rw [h, h2]

/-- C5: No fall-through on decode failure: a frame whose slot 7 lies in the
reserved vendor range but is not the registered Salus identifier, or whose
slot 7 is the Salus identifier but whose slot 6 is an unknown function
discriminant, decodes to the Not-Supported error — for every base decoder,
so the base catalogue is never consulted. -/
theorem C5_no_fallthrough (base : List Nat → Option (Except Error SbiMessage)) :
    (∀ args x, args.get? 7 = some x →
      EXT_VENDOR_RANGE_START ≤ x ∧ x ≤ EXT_VENDOR_RANGE_END → x ≠ EXT_SALUS_TEST →
      VendorSbiMessage.from_regs (V := SalusExtension) base args =
        some (Except.error Error.NotSupported)) ∧
    (∀ args n, args.get? 7 = some EXT_SALUS_TEST → args.get? 6 = some n → n ≠ 0 →
      VendorSbiMessage.from_regs (V := SalusExtension) base args =
        some (Except.error Error.NotSupported)) := by
  constructor
  · intro args x h7 hr hx
    obtain ⟨r0, r1, r2, r3, r4, r5, r6, r7, rest, rfl⟩ :=
      exists_front8 args (length_ge8_of_get7 args x h7)
    have hx7 : r7 = x := by
      simpa using h7
    subst hx7
    rw [vendor_from_regs_cons, if_pos hr, vendor_ext_salus, salus_ext_from_regs_cons,
      if_neg hx]
    rfl
  · intro args n h7 h6 hn
    obtain ⟨r0, r1, r2, r3, r4, r5, r6, r7, rest, rfl⟩ :=
      exists_front8 args (length_ge8_of_get7 args EXT_SALUS_TEST h7)
    have hx7 : r7 = EXT_SALUS_TEST := by
      simpa using h7
    have hx6 : r6 = n := by
      simpa using h6
    subst hx7
    subst hx6
    rw [vendor_from_regs_cons, if_pos (by decide), vendor_ext_salus,
      salus_ext_from_regs_cons, if_pos rfl, salus_test_from_regs_cons, if_neg hn]
    rfl

/-- Witness for C5: slot 7 = 0x09000000 lies in the range yet is not the
Salus identifier; slot 7 = 0x09FFFFFF with unknown function 99 in slot 6. -/
theorem C5_no_fallthrough_witness :
    VendorSbiMessage.from_regs (V := SalusExtension) SbiMessage.from_regs
        [0, 0, 0, 0, 0, 0, 0, 0x09000000] = some (Except.error Error.NotSupported) ∧
    VendorSbiMessage.from_regs (V := SalusExtension) SbiMessage.from_regs
        [0, 0, 0, 0, 0, 0, 99, 0x09FFFFFF] = some (Except.error Error.NotSupported) :=
  ⟨(C5_no_fallthrough SbiMessage.from_regs).1 [0, 0, 0, 0, 0, 0, 0, 0x09000000]
      0x09000000 rfl (by decide) (by decide),
   (C5_no_fallthrough SbiMessage.from_regs).2 [0, 0, 0, 0, 0, 0, 99, 0x09FFFFFF]
      99 rfl rfl (by decide)⟩

/-- C6: Scenario 1, end to end: the frame with slot 7 = 0x09FFFFFF,
slot 6 = 0 and slots 0..2 = (0x1000, 0x2000, 64) decodes to the MemCopy call
with those arguments, and re-encoding the decoded value through its slot
accessors reproduces the identical 8 slots, the unused slots a3, a4, a5 being
zero. -/
theorem C6_scenario1 :
    SalusSbiMessage.from_regs [0x1000, 0x2000, 64, 0, 0, 0, 0, 0x09FFFFFF] =
      some (Except.ok (VendorSbiMessage.Vendor (SalusExtension.SalusTest
        (SalusTestFunction.MemCopy
          { «to» := 0x1000, «from» := 0x2000, len := 64 })))) ∧
    regsOf (VendorSbiMessage.Vendor (SalusExtension.SalusTest
        (SalusTestFunction.MemCopy
          { «to» := 0x1000, «from» := 0x2000, len := 64 })) : SalusSbiMessage) =
      [0x1000, 0x2000, 64, 0, 0, 0, 0, 0x09FFFFFF] :=
  ⟨rfl, rfl⟩

/-- C7: Unsupported environment is fatal: the non-target ecall_send fallback
panics (modelled as none) for every message and never returns a Result value;
by contrast decode on well-formed frames and the default result mapping
always return ordinary typed outcomes. -/
theorem C7_env_fatal :
    (∀ (M : Type) [EcallMessage M] (msg : M), ecall_send msg = none) ∧
    (∀ args : List Nat, 8 ≤ args.length → SalusSbiMessage.from_regs args ≠ none) ∧
    (∀ e v : Nat, EcallMessage.resultDefault e v = Except.ok v ∨
      ∃ err, EcallMessage.resultDefault e v = Except.error err) := by
  refine ⟨fun M _ msg => rfl, ?_, ?_⟩
  · intro args h
    obtain ⟨r0, r1, r2, r3, r4, r5, r6, r7, rest, rfl⟩ := exists_front8 args h
    rw [salus_decode_front8]
    by_cases hr : EXT_VENDOR_RANGE_START ≤ r7 ∧ r7 ≤ EXT_VENDOR_RANGE_END
    · rw [if_pos hr]
      by_cases ht : r7 = EXT_SALUS_TEST
      · rw [if_pos ht]
        by_cases h6 : r6 = 0
        · rw [if_pos h6]
          simp
        · rw [if_neg h6]
          simp
      · rw [if_neg ht]
        simp
    · rw [if_neg hr]
      simp
  · intro e v
    by_cases he : i64OfU64 e = 0
    · exact Or.inl (by simp [EcallMessage.resultDefault, SbiReturn.toResult, he])
    · exact Or.inr ⟨Error.ErrorKind (i64OfU64 e),
        by simp [EcallMessage.resultDefault, SbiReturn.toResult, he]⟩

/-- Witness for C7: a concrete 8-slot frame decodes without panic. -/
theorem C7_env_fatal_witness :
    SalusSbiMessage.from_regs [1, 2, 3, 4, 5, 6, 7, 8] ≠ none :=
  C7_env_fatal.2.1 [1, 2, 3, 4, 5, 6, 7, 8] (by decide)

/-- C8: Vendor identifier invariant: every Salus extension value reports
slot 7 = 0x09FFFFFF, that identifier lies inside the reserved vendor range,
and every frame encoded from a Vendor-wrapped Salus value carries it in
slot 7. -/
theorem C8_vendor_id_invariant :
    (∀ m : SalusExtension, EcallMessage.a7 m = 0x09FFFFFF) ∧
    (EXT_VENDOR_RANGE_START ≤ 0x09FFFFFF ∧ (0x09FFFFFF : Nat) ≤ EXT_VENDOR_RANGE_END) ∧
    (∀ v : SalusExtension,
      (regsOf (VendorSbiMessage.Vendor v : SalusSbiMessage)).get? 7 =
        some 0x09FFFFFF) := by
  refine ⟨fun m => ?_, by decide, fun v => ?_⟩
  · rcases m with ⟨f⟩
    rfl
  · rcases v with ⟨f⟩
    rfl

/-- C9: Implicit slice-length precondition: on every slice of length at least
8 the three public decoders read only in-bounds indexes and return a value
(no panic), while on the empty slice each of them panics on an out-of-bounds
index (modelled as none) instead of returning an error. -/
theorem C9_slice_length :
    (∀ args : List Nat, 8 ≤ args.length →
      (SalusSbiMessage.from_regs args).isSome ∧
      (SalusExtension.from_regs args).isSome ∧
      (SalusTestFunction.from_regs args).isSome) ∧
    (SalusSbiMessage.from_regs ([] : List Nat) = none ∧
      SalusExtension.from_regs ([] : List Nat) = none ∧
      SalusTestFunction.from_regs ([] : List Nat) = none) := by
  constructor
  · intro args h
    obtain ⟨r0, r1, r2, r3, r4, r5, r6, r7, rest, rfl⟩ := exists_front8 args h
    refine ⟨?_, ?_, ?_⟩
    · rw [salus_decode_front8]
      by_cases hr : EXT_VENDOR_RANGE_START ≤ r7 ∧ r7 ≤ EXT_VENDOR_RANGE_END
      · rw [if_pos hr]
        by_cases ht : r7 = EXT_SALUS_TEST
        · rw [if_pos ht]
          by_cases h6 : r6 = 0
          · rw [if_pos h6]
            simp
          · rw [if_neg h6]
            simp
        · rw [if_neg ht]
          simp
      · rw [if_neg hr]
        simp
    · rw [salus_ext_decode_front8]
      by_cases ht : r7 = EXT_SALUS_TEST <;> by_cases h6 : r6 = 0 <;>
        simp [ht, h6]
    · rw [salus_test_from_regs_cons]
      by_cases h6 : r6 = 0 <;> simp [h6]
  · exact ⟨rfl, rfl, rfl⟩

/-- Witness for C9: the three decoders return a value on a concrete 8-slot
frame. -/
theorem C9_slice_length_witness :
    (SalusSbiMessage.from_regs [0, 0, 0, 0, 0, 0, 0, 0]).isSome ∧
    (SalusExtension.from_regs [0, 0, 0, 0, 0, 0, 0, 0]).isSome ∧
    (SalusTestFunction.from_regs [0, 0, 0, 0, 0, 0, 0, 0]).isSome :=
  C9_slice_length.1 [0, 0, 0, 0, 0, 0, 0, 0] (by decide)

/-- C10: Decoding ignores the unused argument slots: every 8-slot frame with
slot 7 = 0x09FFFFFF, slot 6 = 0 and slots 0..2 = (r0, r1, r2) decodes to the
same MemCopy value whatever slots 3..5 hold, so two such frames differing
only there decode equally; consequently some successfully decoded frame is
not reproduced by re-encoding: its slots 3..5 are reset to the fixed zeros. -/
theorem C10_frame_roundtrip_not_id :
    (∀ r0 r1 r2 x3 x4 x5 : Nat,
      SalusSbiMessage.from_regs [r0, r1, r2, x3, x4, x5, 0, 0x09FFFFFF] =
        some (Except.ok (VendorSbiMessage.Vendor (SalusExtension.SalusTest
          (SalusTestFunction.MemCopy ⟨r0, r1, r2⟩))))) ∧
    (∃ args : List Nat, ∃ v : SalusSbiMessage,
      SalusSbiMessage.from_regs args = some (Except.ok v) ∧ regsOf v ≠ args) := by
  constructor
  · intro r0 r1 r2 x3 x4 x5
    rfl
  · refine ⟨[0, 0, 0, 1, 0, 0, 0, 0x09FFFFFF],
      VendorSbiMessage.Vendor (SalusExtension.SalusTest
        (SalusTestFunction.MemCopy ⟨0, 0, 0⟩)), rfl, ?_⟩
    decide

end SbiRs
